import Mathlib

/-!
Shallow embedding of theworksofvon/playmaker-ai.

The embedded code:
  * `src/agency/agent.py` — the `Agent` base class: session manager
    (`__init__`, `start_session`, `load_session`), personality builder
    (`_build_personality`, `reinforce_personality`), the `prompt` wrapper over
    the communication gateway, and the `run` generator.
  * `src/impl/pluto-ai/adapters/nba_stats/nba_api.py` — NBA statistics adapter.
  * `src/impl/pluto-ai/adapters/vegas_odds/odds_api.py` — Vegas odds adapter.

Python exceptions are modelled with `Except`; Python `None` with `Option`.
External collaborators (the model backend, the `nba_api` pip package, the HTTP
client) are parameters of the embedded functions. Modules of this repository
that are referenced but absent from the sources (`session.py`,
`agency_types.py`, `communication.py`, the vegas-odds interface module) are
modelled from the spec where a claim needs them; each such definition says so
in its doc comment.
-/

namespace Playmaker

/-- Python exception values that the embedded code can raise.
`communicationsProtocolError` is the typed gateway error of
`src/agency/exceptions.py` (carrying a message and a status code, per the spec);
`attrError` models Python `AttributeError`; `valueError` models `ValueError`;
`otherExc` stands for any other exception type. -/
inductive PyExc where
  | communicationsProtocolError (msg : String) (status_code : Nat)
  | attrError (msg : String)
  | valueError (msg : String)
  | otherExc (msg : String)
  deriving DecidableEq, Repr

/-- Modelled from the spec: `src/agency/session.py` is not under `src/`.
The spec says a `Session` carries a `session_id` (a unique identifier generated
on creation) and an `agent_id` (the owning Agent name). -/
structure Session where
  session_id : String
  agent_id : String
  deriving DecidableEq, Repr

/-- The mutable state of an `Agent` that the session manager touches
(`src/agency/agent.py`, lines 52-74). `active_session` is assigned `None` in
`__init__`. The attribute `_sessions` is read by `start_session` and
`load_session` but is never initialized anywhere in the class, so we model the
attribute slot with an outer `Option`: `none` means the attribute does not
exist and any access to it raises `AttributeError`. `nonce` is the fresh-id
source for the spec-modelled `Session` constructor (the spec only requires the
generated ids to be unique per agent). -/
structure AgentState where
  name : String
  _sessions : Option (List (String × Session))
  active_session : Option Session
  nonce : Nat
  deriving DecidableEq, Repr

/-- `Agent.__init__` (`agent.py` lines 52-59): builds the communication
protocol (modelled separately as a `Gateway` parameter below) and sets
`self.active_session = None`. Crucially it never initializes `self._sessions`,
so that attribute slot starts absent. -/
def agentInit (name : String) : AgentState :=
  { name := name, _sessions := none, active_session := none, nonce := 0 }

/-- Modelled from the spec: the fresh `session_id` generated when a `Session`
is constructed (`Session(agent_id=self.name)`); uniqueness per agent is the
only property the spec requires, realised here with the state nonce. -/
def freshSessionId (s : AgentState) : String :=
  s.name ++ "-" ++ toString s.nonce

/-- Python dict assignment `m[k] = v`: overwrite the binding if the key is
present, otherwise append it. -/
def dictSet (m : List (String × Session)) (k : String) (v : Session) :
    List (String × Session) :=
  if m.any (fun p => p.1 = k) then
    m.map (fun p => if p.1 = k then (k, v) else p)
  else
    m ++ [(k, v)]

/-- `Agent.start_session` (`agent.py` lines 62-67):
creates `session = Session(agent_id=self.name)`, then executes
`self._sessions[session.session_id] = session`, sets
`self.active_session = session` and returns the session. Because `_sessions`
was never initialized, the dict assignment raises `AttributeError` before any
state is mutated. The result is the returned value (or raised exception)
paired with the post-call state. -/
def start_session (s : AgentState) : Except PyExc Session × AgentState :=
  let session : Session := { session_id := freshSessionId s, agent_id := s.name }
  match s._sessions with
  | none =>
      (Except.error (PyExc.attrError
        "\x27Agent\x27 object has no attribute \x27_sessions\x27"), s)
  | some m =>
      (Except.ok session,
        { s with
            _sessions := some (dictSet m session.session_id session),
            active_session := some session,
            nonce := s.nonce + 1 })

/-- `Agent.load_session` (`agent.py` lines 69-74):
`session = self._sessions.get(session_id)`; if truthy, sets it active; returns
`session` (which is `None` on a miss). The attribute read of `_sessions`
raises `AttributeError` when the attribute is absent. -/
def load_session (s : AgentState) (session_id : String) :
    Except PyExc (Option Session) × AgentState :=
  match s._sessions with
  | none =>
      (Except.error (PyExc.attrError
        "\x27Agent\x27 object has no attribute \x27_sessions\x27"), s)
  | some m =>
      match (m.find? (fun p => p.1 = session_id)).map (fun p => p.2) with
      | some session =>
          (Except.ok (some session), { s with active_session := some session })
      | none => (Except.ok none, s)

/-- A session-manager operation invoked on one Agent instance. -/
inductive SessionOp where
  | start
  | load (session_id : String)
  deriving DecidableEq, Repr

/-- The state after one operation (a raised exception leaves the state as the
source left it at the point of the raise; in both operations the raise happens
before any mutation). -/
def execOp (s : AgentState) : SessionOp → AgentState
  | SessionOp.start => (start_session s).2
  | SessionOp.load sid => (load_session s sid).2

/-- The state after a sequence of session-manager operations. -/
def execTrace (s : AgentState) : List SessionOp → AgentState
  | [] => s
  | op :: ops => execTrace (execOp s op) ops

/-- The behavior of the communication gateway
(`CommunicationProtocol.send_prompt`; `src/agency/communication.py` is not
under `src/`): a function from the message and the sender tag to either a
returned Python value (possibly `None`, hence the inner `Option`) or a raised
exception. The optional `format` hint of the source signature is forwarded to
the backend unchanged and does not influence control flow, so it is not
modelled. -/
abbrev Gateway (V : Type) := String → String → Except PyExc (Option V)

/-- `Agent.prompt` (`agent.py` lines 106-112): calls
`self.communication_protocol.send_prompt(message, sender=sender, ...)` inside
`try`; on `CommunicationsProtocolError` it prints a formatted line (side
effect not modelled) and falls off the function, returning `None`; any other
exception propagates; on success the response is returned unchanged. -/
def agentPrompt {V : Type} (gw : Gateway V) (message sender : String) :
    Except PyExc (Option V) :=
  match gw message sender with
  | Except.ok res => Except.ok res
  | Except.error (PyExc.communicationsProtocolError _ _) => Except.ok none
  | Except.error e => Except.error e

/-- Python truthiness of the feedback value sent into the generator
(`if feedback:` in `agent.py` line 127): `None` and the empty string are
falsy. -/
def pyTruthy : Option String → Bool
  | none => false
  | some s => !s.isEmpty

/-- `Agent.run` (`agent.py` lines 119-129), an async generator with one
suspension point: it yields the `execute_task` result (`taskResult`, supplied
by the abstract subclass), receives `feedback` at the suspension point, and if
the feedback is truthy sends it through `prompt` with sender `"pilot"` and
yields that second result. The value is the list of yielded values paired with
the exception the generator raised, if any (`prompt` can only raise for
non-`CommunicationsProtocolError` gateway failures). -/
def agentRun {V : Type} (gw : Gateway V) (taskResult : Option V) :
    Option String → List (Option V) × Option PyExc
  | none => ([taskResult], none)
  | some f =>
      if f.isEmpty then ([taskResult], none)
      else
        match agentPrompt gw f "pilot" with
        | Except.ok r => ([taskResult, r], none)
        | Except.error e => ([taskResult], some e)

/-- `Agent.instructions`: either a static string or a zero-argument callable
producing a string (`Union[str, Callable[[], str]]`, `agent.py` line 42). -/
def Instructions := Sum String (Unit → String)

/-- Python `callable(x) and x() or x` resolution used by
`_build_personality` (`agent.py` lines 81-83). -/
def baseText : Instructions → String
  | Sum.inl s => s
  | Sum.inr f => f ()

/-- Modelled from the spec: `Tendencies` (`src/agency/agency_types.py` is not
under `src/`) is a mapping from trait name to a normalized score in `[0,1]`. -/
structure Tendencies where
  traits : List (String × Rat)
  deriving DecidableEq, Repr

/-- Modelled from the spec: the Python `str()` rendering of the optional
tendencies value used inside the f-string of `_build_personality`;
`str(None)` is `"None"`, and the rendering of a `Tendencies` value is some
fixed deterministic serialization of its trait mapping. -/
def pyStrTendencies : Option Tendencies → String
  | none => "None"
  | some t =>
      String.intercalate ", " (t.traits.map (fun p => p.1 ++ "=" ++ toString p.2))

/-- The fixed-format tendency clause of `_build_personality`
(`agent.py` line 84). -/
def tendenciesDescription (tendencies : Option Tendencies) : String :=
  "You\x27re Tendecies are: " ++ pyStrTendencies tendencies ++
    ", ranking system for tendecies is from 0 (lowest) to 1 (highest)"

/-- `Agent._build_personality` (`agent.py` lines 77-85): resolves the base
instructions (calling the callable with no arguments when applicable) and
appends the fixed tendency clause. -/
def _build_personality (instructions : Instructions)
    (tendencies : Option Tendencies) : String :=
  let base_instructions := baseText instructions
  base_instructions ++ " : " ++ tendenciesDescription tendencies

/-- The reminder string `reinforce_personality` builds
(`agent.py` line 93). -/
def reminderStr (instructions : Instructions) (tendencies : Option Tendencies) :
    String :=
  "Reminder, this is your true self, always respond according to this personality and do not go outside the realms of what you are. "
    ++ _build_personality instructions tendencies

/-- `Agent.reinforce_personality` (`agent.py` lines 87-100): sends the
reminder through `self.prompt(reminder_str, "creator")` inside a
`try`/`except Exception` that returns `True` on a normal return of the prompt
call and `False` when that call raises (printing is not modelled). Note the
`prompt` wrapper already swallows `CommunicationsProtocolError`, so the
`except` branch only fires for other exception types. -/
def reinforce_personality {V : Type} (gw : Gateway V)
    (instructions : Instructions) (tendencies : Option Tendencies) : Bool :=
  match agentPrompt gw (reminderStr instructions tendencies) "creator" with
  | Except.ok _ => true
  | Except.error _ => false

/-! ### NBA statistics adapter
(`src/impl/pluto-ai/adapters/nba_stats/nba_api.py`)

The `nba_api` pip package (static player/team directories and stats
endpoints) is an external collaborator; its lookups and fetches are
parameters. Of a player/team record only the `"id"` field is used by the
embedded methods. -/

/-- A record of the static player directory; the code reads
`player_dict[0]["id"]`. -/
structure PlayerRec where
  id : Nat
  deriving DecidableEq, Repr

/-- A record of the static team directory; the code reads
`team_dict[0]["id"]`. -/
structure TeamRec where
  id : Nat
  deriving DecidableEq, Repr

/-- `NbaAnalyticsPipeline.find_player_info` (`nba_api.py` lines 27-47):
`players.find_players_by_full_name(name)`; if the list is empty, raises
`ValueError(f"No player found with name: {name}")`; otherwise fetches
`CommonPlayerInfo` for the first match's id and returns its first data
frame. -/
def find_player_info {DF : Type} (findPlayers : String → List PlayerRec)
    (commonPlayerInfo : Nat → DF) (name : String) : Except PyExc DF :=
  match findPlayers name with
  | [] => Except.error (PyExc.valueError ("No player found with name: " ++ name))
  | p :: _ => Except.ok (commonPlayerInfo p.id)

/-- `NbaAnalyticsPipeline.get_player_career_stats` (`nba_api.py` lines
49-69): same lookup, raising the same `ValueError` on a miss, then fetching
`PlayerCareerStats`. -/
def get_player_career_stats {DF : Type} (findPlayers : String → List PlayerRec)
    (playerCareerStats : Nat → DF) (name : String) : Except PyExc DF :=
  match findPlayers name with
  | [] => Except.error (PyExc.valueError ("No player found with name: " ++ name))
  | p :: _ => Except.ok (playerCareerStats p.id)

/-- `NbaAnalyticsPipeline.get_player_game_logs` (`nba_api.py` lines 71-94):
same lookup, raising the same `ValueError` on a miss, then fetching
`PlayerGameLogs` for the (player id, season). -/
def get_player_game_logs {DF : Type} (findPlayers : String → List PlayerRec)
    (playerGameLogs : Nat → String → DF) (name season : String) :
    Except PyExc DF :=
  match findPlayers name with
  | [] => Except.error (PyExc.valueError ("No player found with name: " ++ name))
  | p :: _ => Except.ok (playerGameLogs p.id season)

/-- `NbaAnalyticsPipeline.get_team_game_logs` (`nba_api.py` lines 109-131):
`teams.find_teams_by_full_name(team_name)`; if the list is empty, raises
`ValueError(f"No team found with name: {team_name}")`; otherwise fetches
`TeamGameLogs` for the (team id, season). -/
def get_team_game_logs {DF : Type} (findTeams : String → List TeamRec)
    (teamGameLogs : Nat → String → DF) (team_name season : String) :
    Except PyExc DF :=
  match findTeams team_name with
  | [] =>
      Except.error (PyExc.valueError ("No team found with name: " ++ team_name))
  | t :: _ => Except.ok (teamGameLogs t.id season)

/-! ### Vegas odds adapter
(`src/impl/pluto-ai/adapters/vegas_odds/odds_api.py`) -/

/-- The Python values that flow into the query-parameter dicts of the odds
adapter: `None`, a string, or a list of strings (the declared types of the
`regions`/`markets`/`sport` arguments). -/
inductive Py where
  | pynone
  | str (s : String)
  | list (xs : List String)
  deriving DecidableEq, Repr

/-- The `if isinstance(x, list): x = ",".join(x)` normalization applied to
`markets` and `regions` (`odds_api.py` lines 26-29 and 45-48). -/
def joinIfList : Py → Py
  | Py.list xs => Py.str (String.intercalate "," xs)
  | v => v

/-- One step of building a Python dict literal: a duplicate key keeps its
first position but takes the later value. -/
def dictInsertPy (d : List (Py × Py)) (k v : Py) : List (Py × Py) :=
  if d.any (fun p => p.1 = k) then
    d.map (fun p => if p.1 = k then (k, v) else p)
  else
    d ++ [(k, v)]

/-- A Python dict literal `{k1: v1, k2: v2, ...}` evaluated left to right. -/
def pyDict (entries : List (Py × Py)) : List (Py × Py) :=
  entries.foldl (fun d kv => dictInsertPy d kv.1 kv.2) []

/-- Lookup in the embedded dict. -/
def dictGet (d : List (Py × Py)) (k : Py) : Option Py :=
  (d.find? (fun p => p.1 = k)).map (fun p => p.2)

/-- The payload of a `VegasOddsResponse`: either the parsed JSON body (kept
abstract) or the `{"status": "error", "error": error}` dict built in the
`except` branch of `_fetch`. -/
inductive OddsPayload (J : Type) where
  | data (body : J)
  | errDict (e : PyExc)
  deriving DecidableEq, Repr

/-- Modelled from the spec: the `VegasOddsResponse` type comes from the
adapter's interface module, which is not under `src/`; from its construction
sites in `odds_api.py` it carries a `response` payload and a `status_code`. -/
structure VegasOddsResponse (J : Type) where
  response : OddsPayload J
  status_code : Nat
  deriving DecidableEq, Repr

/-- The outcome of the HTTP interaction inside `_fetch`'s `try` block: either
some exception is raised (during the params merge, the request, or
`response.json()`), or the request completes with a status and a parsed
body. -/
inductive FetchOutcome (J : Type) where
  | raises (e : PyExc)
  | responds (status : Nat) (body : J)
  deriving DecidableEq, Repr

/-- `VegasOddsPipeline._fetch` (`odds_api.py` lines 53-73): inside `try`, on
status 200 returns `VegasOddsResponse(response=body, status_code=200)`; on any
other status it falls off the end of the function, returning `None`; the
`except Exception` branch returns
`VegasOddsResponse(response={"status": "error", "error": error},
status_code=500)`. No exception escapes. -/
def _fetch {J : Type} (o : FetchOutcome J) : Option (VegasOddsResponse J) :=
  match o with
  | FetchOutcome.raises e => some ⟨OddsPayload.errDict e, 500⟩
  | FetchOutcome.responds status body =>
      if status = 200 then some ⟨OddsPayload.data body, 200⟩ else none

/-- `VegasOddsPipeline.get_sports` (`odds_api.py` lines 14-17): awaits
`_fetch` on the sports URL (no extra params) and returns its result. -/
def get_sports {J : Type} (o : FetchOutcome J) : Option (VegasOddsResponse J) :=
  _fetch o

/-- `VegasOddsPipeline.get_current_odds` (`odds_api.py` lines 19-32): joins
list-valued `markets`/`regions` with commas, builds
`params = {"regions": regions, markets: markets}` — note the second key is the
*value* of `markets`, not the string `"markets"` — and awaits
`_fetch(url, params=params)`. The value is the params dict passed to `_fetch`
paired with the fetch result (`_fetch` merges the api-key base params on top;
the claim-relevant dict is the one built here). The `sport` argument only
enters the URL. -/
def get_current_odds {J : Type} (_sport : Py) (regions markets : Py)
    (o : FetchOutcome J) : List (Py × Py) × Option (VegasOddsResponse J) :=
  let markets2 := joinIfList markets
  let regions2 := joinIfList regions
  let params := pyDict [(Py.str "regions", regions2), (markets2, markets2)]
  (params, _fetch o)

/-- The external call
`datetime.fromtimestamp(date, tz=timezone.utc).strftime("%Y-%m-%dT%H:%M:%SZ")`
performed by `get_historical_odds` (`odds_api.py` line 42). With an explicit
timezone this is a pure computation: it succeeds exactly when the *seconds*
timestamp falls in the representable `datetime` range, year 1 to year 9999,
i.e. -62135596800 to 253402300799 seconds, and raises for every timestamp
outside it — in particular for every realistic value of the argument that the
source documents as a "timestamp in milliseconds" (line 36). The raised
exception is `ValueError` ("year ... is out of range"; astronomically large
magnitudes surface as `OverflowError` instead — both are exceptions and are
modelled as the former). The `strftime` rendering of an in-range datetime is
kept abstract as the `render` parameter. -/
def fromtimestampUtcStrftime (render : Int → String) (date : Int) :
    Except PyExc String :=
  if -62135596800 ≤ date ∧ date ≤ 253402300799 then Except.ok (render date)
  else Except.error (PyExc.valueError "year is out of range")

/-- `VegasOddsPipeline.get_historical_odds` (`odds_api.py` lines 34-51):
first rebinds `date` to
`datetime.fromtimestamp(date, tz=timezone.utc).strftime(...)` — a conversion
performed outside any `try`, whose exception for an out-of-range timestamp
propagates to the caller before `_fetch` is ever reached — then comma-joins
list-valued `markets`/`regions`, builds
`params = {"date": date, "regions": regions, "markets": markets}` (here the
literal string key `"markets"` is used) and awaits `_fetch`. The value is the
raised exception, or the params dict paired with the fetch result. -/
def get_historical_odds {J : Type} (render : Int → String) (date : Int)
    (_sport : Py) (regions markets : Py) (o : FetchOutcome J) :
    Except PyExc (List (Py × Py) × Option (VegasOddsResponse J)) :=
  match fromtimestampUtcStrftime render date with
  | Except.error e => Except.error e
  | Except.ok dateStr =>
      let markets2 := joinIfList markets
      let regions2 := joinIfList regions
      let params := pyDict
        [(Py.str "date", Py.str dateStr), (Py.str "regions", regions2),
          (Py.str "markets", markets2)]
      Except.ok (params, _fetch o)

/-! ### Concrete fixtures used by witnesses and counterexamples -/

/-- A gateway that always answers successfully with the value `7`. -/
def gwOk : Gateway Nat := fun _ _ => Except.ok (some 7)

/-- A gateway that always fails with the typed communication error. -/
def gwCommFail : Gateway Nat :=
  fun _ _ =>
    Except.error (PyExc.communicationsProtocolError "backend unreachable" 502)

/-- A gateway that always raises an exception of some other type. -/
def gwBoom : Gateway Nat := fun _ _ => Except.error (PyExc.otherExc "boom")

/-- A player directory in which no name resolves. -/
def noPlayers : String → List PlayerRec := fun _ => []

/-- A team directory in which no name resolves. -/
def noTeams : String → List TeamRec := fun _ => []

/-- A stats endpoint returning the queried id as its data frame. -/
def idFetch : Nat → Nat := fun i => i

/-- A per-season stats endpoint returning the queried id as its data frame. -/
def idFetchSeason : Nat → String → Nat := fun i _ => i

/-! ### Helper lemmas -/

/-- With the `_sessions` attribute absent, both session operations raise
before mutating, so each operation leaves the state unchanged. -/
theorem execOp_of_sessions_none (s : AgentState) (h : s._sessions = none)
    (op : SessionOp) : execOp s op = s := by
  cases op with
  | start => simp [execOp, start_session, h]
  | load sid => simp [execOp, load_session, h]

/-- A whole trace of session operations from a state with no `_sessions`
attribute is a no-op. -/
theorem execTrace_of_sessions_none (s : AgentState) (h : s._sessions = none) :
    ∀ ops : List SessionOp, execTrace s ops = s := by
  intro ops
  induction ops with
  | nil => rfl
  | cons op ops ih =>
      simp [execTrace, execOp_of_sessions_none s h op, ih]

/-! ### Claims -/

/-- C1 (code bug): the claim says `start_session` always succeeds, registers
the fresh session, activates it and returns it. On the code as written the
very first call on a fresh Agent raises `AttributeError`, because `__init__`
never initializes `self._sessions`; no session is registered and the state is
unchanged. This theorem evaluates the embedded code at that failing input. -/
theorem c1_start_session_first_call_raises :
    start_session (agentInit "Luminaria")
      = (Except.error (PyExc.attrError
          "\x27Agent\x27 object has no attribute \x27_sessions\x27"),
         agentInit "Luminaria") := rfl

/-- C2 (code bug): the claim says `load_session` on an unknown id returns an
explicit not-found indicator without raising and leaves `active_session`
unchanged. On the code as written the lookup `self._sessions.get(session_id)`
raises `AttributeError` on every call, because `self._sessions` is never
initialized. This theorem evaluates the embedded code at that failing
input. -/
theorem c2_load_session_unknown_id_raises :
    load_session (agentInit "Luminaria") "bogus"
      = (Except.error (PyExc.attrError
          "\x27Agent\x27 object has no attribute \x27_sessions\x27"),
         agentInit "Luminaria") := rfl

/-- C6: for every Agent and every sequence of `start_session` /
`load_session` operations, the active-session slot holds at most one
reference, which (when set) points into the session registry, and it can only
be non-`None` if a `start_session` call or a `load_session` call occurred. In
the code as written every operation raises before mutating, so
`active_session` in fact stays `None` forever and the invariant holds. -/
theorem c6_single_active_session_invariant (name : String)
    (ops : List SessionOp) :
    ((execTrace (agentInit name) ops).active_session = none
      ∨ ∃! sess : Session,
          (execTrace (agentInit name) ops).active_session = some sess)
  ∧ ((execTrace (agentInit name) ops).active_session = none
      ∨ ∃ m sess, (execTrace (agentInit name) ops)._sessions = some m
          ∧ (execTrace (agentInit name) ops).active_session = some sess
          ∧ (sess.session_id, sess) ∈ m)
  ∧ ((execTrace (agentInit name) ops).active_session = none
      ∨ SessionOp.start ∈ ops ∨ ∃ sid, SessionOp.load sid ∈ ops) := by
  have h := execTrace_of_sessions_none (agentInit name) rfl ops
  rw [h]
  exact ⟨Or.inl rfl, Or.inl rfl, Or.inl rfl⟩

/-- C3: `run` with no (or falsy) feedback at the suspension point yields
exactly the one `execute_task` result and terminates without a pending
exception; with truthy feedback it yields exactly two results, the second
being the value returned by `prompt` for the feedback message with sender
`"pilot"` (which is defined whenever the gateway succeeds or fails with the
typed communication error). -/
theorem c3_run_yield_behavior {V : Type} (gw : Gateway V)
    (taskResult : Option V) :
    (∀ feedback : Option String, pyTruthy feedback = false →
        agentRun gw taskResult feedback = ([taskResult], none))
  ∧ (∀ (f : String) (r : Option V), f.isEmpty = false →
        agentPrompt gw f "pilot" = Except.ok r →
        agentRun gw taskResult (some f) = ([taskResult, r], none)) := by
  constructor
  · intro feedback h
    cases feedback with
    | none => rfl
    | some f =>
        have hf : f.isEmpty = true := by simpa [pyTruthy] using h
        simp [agentRun, hf]
  · intro f r hne hp
    simp [agentRun, hne, hp]

/-- C3 witness: the theorem applied at a successful gateway, a concrete task
result, no feedback in the first conjunct, and the feedback string
`"do it again"` in the second. -/
theorem c3_run_yield_behavior_witness :
    agentRun gwOk (some 1) none = ([some 1], none)
  ∧ agentRun gwOk (some 1) (some "do it again") = ([some 1, some 7], none) :=
  ⟨(c3_run_yield_behavior gwOk (some 1)).1 none rfl,
   (c3_run_yield_behavior gwOk (some 1)).2 "do it again" (some 7) rfl rfl⟩

/-- C4: when the gateway fails with the typed
`CommunicationsProtocolError`, `prompt` catches it (printing a formatted line,
a side effect outside this embedding) and returns `None`; when the gateway
succeeds, `prompt` returns the gateway's response unchanged. -/
theorem c4_prompt_error_handling {V : Type} (gw : Gateway V)
    (message sender : String) :
    (∀ m c,
        gw message sender
          = Except.error (PyExc.communicationsProtocolError m c) →
        agentPrompt gw message sender = Except.ok none)
  ∧ (∀ res : Option V, gw message sender = Except.ok res →
        agentPrompt gw message sender = Except.ok res) := by
  constructor
  · intro m c h
    simp [agentPrompt, h]
  · intro res h
    simp [agentPrompt, h]

/-- C4 witness: the theorem applied at the always-failing and the
always-succeeding concrete gateways. -/
theorem c4_prompt_error_handling_witness :
    agentPrompt gwCommFail "hello" "user" = Except.ok none
  ∧ agentPrompt gwOk "hello" "user" = Except.ok (some 7) :=
  ⟨(c4_prompt_error_handling gwCommFail "hello" "user").1
      "backend unreachable" 502 rfl,
   (c4_prompt_error_handling gwOk "hello" "user").2 (some 7) rfl⟩

/-- C5 counterexample: the claim says that on any failure from the gateway,
`reinforce_personality` returns `false`. At this concrete input the gateway
fails with the typed communication error on every prompt, yet
`reinforce_personality` returns `true`: the inner `prompt` wrapper already
swallowed the error, so the `except` branch of `reinforce_personality` never
fires. -/
theorem c5_reinforce_counterexample :
    gwCommFail
        (reminderStr (Sum.inl "You are a helpful assistant agent.") none)
        "creator"
      = Except.error
          (PyExc.communicationsProtocolError "backend unreachable" 502)
  ∧ reinforce_personality gwCommFail
        (Sum.inl "You are a helpful assistant agent.") none = true :=
  ⟨rfl, rfl⟩

/-- C5 (amended): `reinforce_personality` returns `true` whenever the
`prompt` call returns normally — including when the gateway fails with the
typed `CommunicationsProtocolError`, which `prompt` swallows into `None` — and
returns `false` exactly when the `prompt` call raises (which only happens for
gateway failures of some other exception type); it never propagates a
failure. -/
theorem c5_reinforce_swallows_into_bool {V : Type} (gw : Gateway V)
    (instructions : Instructions) (tendencies : Option Tendencies) :
    (∀ r, agentPrompt gw (reminderStr instructions tendencies) "creator"
          = Except.ok r →
        reinforce_personality gw instructions tendencies = true)
  ∧ (∀ m c, gw (reminderStr instructions tendencies) "creator"
          = Except.error (PyExc.communicationsProtocolError m c) →
        reinforce_personality gw instructions tendencies = true)
  ∧ (∀ e, agentPrompt gw (reminderStr instructions tendencies) "creator"
          = Except.error e →
        reinforce_personality gw instructions tendencies = false) := by
  refine ⟨?_, ?_, ?_⟩
  · intro r h
    simp [reinforce_personality, h]
  · intro m c h
    simp [reinforce_personality, agentPrompt, h]
  · intro e h
    simp [reinforce_personality, h]

/-- C5 witness: the amended theorem applied at the failing concrete gateways:
a typed communication failure still yields `true`; a failure of another
exception type yields `false`. -/
theorem c5_reinforce_swallows_witness :
    reinforce_personality gwCommFail (Sum.inl "base") none = true
  ∧ reinforce_personality gwBoom (Sum.inl "base") none = false :=
  ⟨(c5_reinforce_swallows_into_bool gwCommFail (Sum.inl "base") none).2.1
      "backend unreachable" 502 rfl,
   (c5_reinforce_swallows_into_bool gwBoom (Sum.inl "base") none).2.2
      (PyExc.otherExc "boom") rfl⟩

/-- C7: `_build_personality` resolves the base text (invoking a callable
`instructions` with no arguments, using a string directly) and appends the
fixed-format tendency clause carrying the "0 (lowest) to 1 (highest)" scoring
convention; being a pure function of `(instructions, tendencies)`, it is
deterministic and performs no I/O. -/
theorem c7_build_personality_shape (instructions : Instructions)
    (tendencies : Option Tendencies) :
    _build_personality instructions tendencies
        = baseText instructions ++ " : " ++
          ("You\x27re Tendecies are: " ++ pyStrTendencies tendencies ++
            ", ranking system for tendecies is from 0 (lowest) to 1 (highest)")
  ∧ (∀ f : Unit → String, baseText (Sum.inr f) = f ())
  ∧ (∀ s : String, baseText (Sum.inl s) = s)
  ∧ (∀ (i2 : Instructions) (t2 : Option Tendencies),
        i2 = instructions → t2 = tendencies →
        _build_personality i2 t2
          = _build_personality instructions tendencies) := by
  refine ⟨rfl, fun f => rfl, fun s => rfl, ?_⟩
  intro i2 t2 h1 h2
  rw [h1, h2]

/-- C7 witness: the theorem applied at the default static instructions and no
tendencies; the determinism conjunct is discharged at the same inputs. -/
theorem c7_build_personality_witness :
    _build_personality (Sum.inl "You are a helpful assistant agent.") none
        = baseText (Sum.inl "You are a helpful assistant agent.") ++ " : " ++
          ("You\x27re Tendecies are: " ++ pyStrTendencies none ++
            ", ranking system for tendecies is from 0 (lowest) to 1 (highest)")
  ∧ _build_personality (Sum.inl "You are a helpful assistant agent.") none
      = _build_personality (Sum.inl "You are a helpful assistant agent.") none :=
  ⟨(c7_build_personality_shape
      (Sum.inl "You are a helpful assistant agent.") none).1,
   (c7_build_personality_shape
      (Sum.inl "You are a helpful assistant agent.") none).2.2.2
      (Sum.inl "You are a helpful assistant agent.") none rfl rfl⟩

/-- C8 counterexample: the claim says the not-found condition of the NBA
lookups is represented as an explicit non-exceptional result rather than a
fatal error. At this concrete input — a directory in which the name resolves
to no player — `find_player_info` raises
`ValueError("No player found with name: ...")`: the call has no non-exceptional
result at all. -/
theorem c8_not_found_counterexample :
    find_player_info noPlayers idFetch "Zion Doe"
        = Except.error (PyExc.valueError "No player found with name: Zion Doe")
  ∧ (find_player_info noPlayers idFetch "Zion Doe").toOption = none :=
  ⟨rfl, rfl⟩

/-- C8 (amended): for every name that resolves to no player or team, each of
the four lookup operations raises a `ValueError` naming the entity — a raised
exception, not a non-exceptional not-found result. -/
theorem c8_not_found_raises_value_error {DF : Type}
    (findPlayers : String → List PlayerRec) (findTeams : String → List TeamRec)
    (commonPlayerInfo playerCareerStats : Nat → DF)
    (playerGameLogs teamGameLogs : Nat → String → DF)
    (name team_name season : String)
    (hp : findPlayers name = []) (ht : findTeams team_name = []) :
    find_player_info findPlayers commonPlayerInfo name
        = Except.error
            (PyExc.valueError ("No player found with name: " ++ name))
  ∧ get_player_career_stats findPlayers playerCareerStats name
        = Except.error
            (PyExc.valueError ("No player found with name: " ++ name))
  ∧ get_player_game_logs findPlayers playerGameLogs name season
        = Except.error
            (PyExc.valueError ("No player found with name: " ++ name))
  ∧ get_team_game_logs findTeams teamGameLogs team_name season
        = Except.error
            (PyExc.valueError ("No team found with name: " ++ team_name)) := by
  refine ⟨?_, ?_, ?_, ?_⟩ <;>
    simp [find_player_info, get_player_career_stats, get_player_game_logs,
      get_team_game_logs, hp, ht]

/-- C8 witness: the amended theorem applied at empty directories and concrete
names. -/
theorem c8_not_found_raises_witness :
    find_player_info noPlayers idFetch "Zed"
        = Except.error
            (PyExc.valueError ("No player found with name: " ++ "Zed"))
  ∧ get_player_career_stats noPlayers idFetch "Zed"
        = Except.error
            (PyExc.valueError ("No player found with name: " ++ "Zed"))
  ∧ get_player_game_logs noPlayers idFetchSeason "Zed" "2023-24"
        = Except.error
            (PyExc.valueError ("No player found with name: " ++ "Zed"))
  ∧ get_team_game_logs noTeams idFetchSeason "Gotham Knights" "2023-24"
        = Except.error
            (PyExc.valueError
              ("No team found with name: " ++ "Gotham Knights")) :=
  c8_not_found_raises_value_error noPlayers noTeams idFetch idFetch
    idFetchSeason idFetchSeason "Zed" "Gotham Knights" "2023-24" rfl rfl

/-- C9 counterexample: the claim says no exception propagates to the caller
of `get_historical_odds`. At this concrete input — the documented millisecond
timestamp for 2024-01-01 and a request that would even complete with status
200 — the call raises `ValueError`: `datetime.fromtimestamp` runs outside any
`try` before `_fetch`, and a millisecond timestamp read as seconds lies far
beyond year 9999. -/
theorem c9_historical_date_counterexample :
    get_historical_odds toString 1704067200000 (Py.str "basketball_nba")
        (Py.str "us") (Py.str "h2h") (FetchOutcome.responds 200 (0 : Nat))
      = Except.error (PyExc.valueError "year is out of range") := rfl

/-- C9 (amended): no exception escapes `_fetch`: an exception raised during
the request produces `VegasOddsResponse` with status code 500 carrying the
error; a completed request with a status other than 200 produces `None`; a
200 response is wrapped with status code 200; `get_sports` and
`get_current_odds` return the `_fetch` result unchanged. `get_historical_odds`
however first converts its timestamp with `datetime.fromtimestamp` outside
any `try`: when the conversion succeeds it returns the `_fetch` result
unchanged, and when it raises (any timestamp outside the representable
`datetime` range — every realistic millisecond value) that exception
propagates to the caller. -/
theorem c9_fetch_error_handling {J : Type} (o : FetchOutcome J)
    (render : Int → String) (date : Int) (sport regions markets : Py) :
    (∀ e, o = FetchOutcome.raises e →
        _fetch o = some ⟨OddsPayload.errDict e, 500⟩)
  ∧ (∀ (status : Nat) (body : J), o = FetchOutcome.responds status body →
        status ≠ 200 → _fetch o = none)
  ∧ (∀ body : J, o = FetchOutcome.responds 200 body →
        _fetch o = some ⟨OddsPayload.data body, 200⟩)
  ∧ get_sports o = _fetch o
  ∧ (get_current_odds sport regions markets o).2 = _fetch o
  ∧ (∀ dateStr : String,
        fromtimestampUtcStrftime render date = Except.ok dateStr →
        (get_historical_odds render date sport regions markets o).map
            (fun pr => pr.2)
          = Except.ok (_fetch o))
  ∧ (∀ e : PyExc,
        fromtimestampUtcStrftime render date = Except.error e →
        get_historical_odds render date sport regions markets o
          = Except.error e) := by
  refine ⟨?_, ?_, ?_, rfl, rfl, ?_, ?_⟩
  · intro e h
    simp [h, _fetch]
  · intro status body h hs
    simp [h, _fetch, hs]
  · intro body h
    simp [h, _fetch]
  · intro dateStr h
    simp [get_historical_odds, h, Except.map]
  · intro e h
    simp [get_historical_odds, h]

/-- C9 witness: the theorem applied at a raised exception, at a completed 404
response, at an in-range timestamp (the conversion succeeds and the `_fetch`
result is passed through), and at the out-of-range millisecond timestamp (the
`ValueError` propagates). -/
theorem c9_fetch_error_handling_witness :
    _fetch (FetchOutcome.raises (J := Nat) (PyExc.otherExc "timeout"))
        = some ⟨OddsPayload.errDict (PyExc.otherExc "timeout"), 500⟩
  ∧ _fetch (FetchOutcome.responds 404 (0 : Nat)) = none
  ∧ (get_historical_odds toString 0 Py.pynone Py.pynone Py.pynone
        (FetchOutcome.responds 404 (0 : Nat))).map (fun pr => pr.2)
      = Except.ok none
  ∧ get_historical_odds toString 1704067200000 Py.pynone Py.pynone Py.pynone
        (FetchOutcome.responds 404 (0 : Nat))
      = Except.error (PyExc.valueError "year is out of range") :=
  ⟨(c9_fetch_error_handling
      (FetchOutcome.raises (J := Nat) (PyExc.otherExc "timeout"))
      toString 0 Py.pynone Py.pynone Py.pynone).1
      (PyExc.otherExc "timeout") rfl,
   (c9_fetch_error_handling (FetchOutcome.responds 404 (0 : Nat))
      toString 0 Py.pynone Py.pynone Py.pynone).2.1
      404 0 rfl (by decide),
   (c9_fetch_error_handling (FetchOutcome.responds 404 (0 : Nat))
      toString 0 Py.pynone Py.pynone Py.pynone).2.2.2.2.2.1
      "0" rfl,
   (c9_fetch_error_handling (FetchOutcome.responds 404 (0 : Nat))
      toString 1704067200000 Py.pynone Py.pynone Py.pynone).2.2.2.2.2.2
      (PyExc.valueError "year is out of range") rfl⟩

/-- C10 counterexample: the claim says the params dict of `get_current_odds`
never contains a key named `"markets"`. At the concrete input
`markets = "markets"` the dict literal `{"regions": regions, markets: markets}`
does contain the key `"markets"` (mapped to `"markets"`), because the second
key is the value of `markets` itself. -/
theorem c10_params_counterexample :
    dictGet
        (get_current_odds (Py.str "basketball_nba") (Py.str "us")
          (Py.str "markets") (FetchOutcome.responds 404 (0 : Nat))).1
        (Py.str "markets")
      = some (Py.str "markets") := rfl

/-- C10 (amended): whenever the comma-joined markets value is a string `m`
different from `"markets"` and from `"regions"`, the params dict built by
`get_current_odds` maps `"regions"` to the comma-joined regions value and `m`
to `m`, and contains no key named `"markets"`. -/
theorem c10_params_shape {J : Type} (sport regions markets : Py) (m : String)
    (o : FetchOutcome J) (hm : joinIfList markets = Py.str m)
    (h1 : m ≠ "markets") (h2 : m ≠ "regions") :
    dictGet (get_current_odds sport regions markets o).1 (Py.str "regions")
        = some (joinIfList regions)
  ∧ dictGet (get_current_odds sport regions markets o).1 (Py.str m)
        = some (Py.str m)
  ∧ dictGet (get_current_odds sport regions markets o).1 (Py.str "markets")
        = none := by
  have h2s : ("regions" : String) ≠ m := Ne.symm h2
  refine ⟨?_, ?_, ?_⟩ <;>
    simp [get_current_odds, pyDict, dictInsertPy, dictGet, hm, List.find?,
      h1, h2, h2s]

/-- C10 witness: the amended theorem applied at list-valued regions and the
default markets value `"h2h"`. -/
theorem c10_params_shape_witness :
    dictGet
        (get_current_odds (Py.str "basketball_nba") (Py.list ["us", "uk"])
          (Py.str "h2h") (FetchOutcome.responds 200 (0 : Nat))).1
        (Py.str "regions")
      = some (joinIfList (Py.list ["us", "uk"]))
  ∧ dictGet
        (get_current_odds (Py.str "basketball_nba") (Py.list ["us", "uk"])
          (Py.str "h2h") (FetchOutcome.responds 200 (0 : Nat))).1
        (Py.str "h2h")
      = some (Py.str "h2h")
  ∧ dictGet
        (get_current_odds (Py.str "basketball_nba") (Py.list ["us", "uk"])
          (Py.str "h2h") (FetchOutcome.responds 200 (0 : Nat))).1
        (Py.str "markets")
      = none :=
  c10_params_shape (Py.str "basketball_nba") (Py.list ["us", "uk"])
    (Py.str "h2h") "h2h" (FetchOutcome.responds 200 (0 : Nat)) rfl
    (by decide) (by decide)

end Playmaker
